import Mathlib

/-!
Shallow embedding of the core of `compare-bundle-size` (utils.mjs and the
`compare` entry point): the hash-stripping normalizer (`stripHash`), the
delta classifier (`getDeltaText`, `iconForDifference`), the table renderer
(`markdownTable`), the report builder (`diffTable`) and the baseline
fetcher (`getGistContents`).  JS numbers are modelled as `Int`, the exact
floating-point divisions in the percentage computation as `Rat` (all
inputs of interest are exactly representable), strings as `String`.
-/

namespace CompareBundleSize

/-- Modelled from the spec: the external `pretty-bytes` formatter, which
turns a signed byte count into a human-readable string ("0 B", "-1 B",
"1.1 kB").  Exact for magnitudes below 1000 bytes (digits followed by
" B", a leading "-" for negative input); larger magnitudes are rendered
with up to one decimal in kB, which is all the report claims evaluate. -/
def prettyBytes (n : Int) : String :=
  let a := n.natAbs
  let sign := if n < 0 then "-" else ""
  if a < 1000 then
    sign ++ toString a ++ " B"
  else
    let whole := a / 1000
    let tenths := a % 1000 / 100
    sign ++ toString whole ++ (if tenths = 0 then "" else "." ++ toString tenths) ++ " kB"

/-- JavaScript `Math.round` on an exactly-represented value: the floor of
`x + 1/2` (rounds halves toward positive infinity, so `-12.5` gives `-12`). -/
def jsRound (q : ℚ) : ℤ := ⌊q + 1/2⌋

/-- The percentage computed by both classifier functions in utils.mjs:
`Math.round((delta / originalSize) * 100)`. -/
def jsPercentage (delta originalSize : ℤ) : ℤ :=
  jsRound ((delta : ℚ) / (originalSize : ℚ) * 100)

/-- utils.mjs `getDeltaText(delta, originalSize)`. -/
def getDeltaText (delta originalSize : ℤ) : String :=
  let deltaText := (if delta > 0 then "+" else "") ++ prettyBytes delta
  if delta.natAbs = 0 then
    -- only print size
    deltaText
  else if originalSize = 0 then
    deltaText ++ " (new file)"
  else if originalSize = -delta then
    deltaText ++ " (removed)"
  else
    let percentage := jsPercentage delta originalSize
    deltaText ++ " (" ++ (if percentage > 0 then "+" else "") ++ toString percentage ++ "%)"

/-- utils.mjs `iconForDifference(delta, originalSize)`. -/
def iconForDifference (delta originalSize : ℤ) : String :=
  if originalSize = 0 then "🆕"
  else
    let percentage := jsPercentage delta originalSize
    if percentage ≥ 50 then "🆘"
    else if percentage ≥ 20 then "🚨"
    else if percentage ≥ 10 then "⚠️"
    else if percentage ≥ 5 then "🔍"
    else if percentage ≤ -50 then "🏆"
    else if percentage ≤ -20 then "🎉"
    else if percentage ≤ -10 then "👏"
    else if percentage ≤ -5 then "✅"
    else ""

/-- The threshold chain of `iconForDifference` as a function of the
already-rounded percentage (the body of the non-new branch). -/
def iconThresholds (percentage : ℤ) : String :=
  if percentage ≥ 50 then "🆘"
  else if percentage ≥ 20 then "🚨"
  else if percentage ≥ 10 then "⚠️"
  else if percentage ≥ 5 then "🔍"
  else if percentage ≤ -50 then "🏆"
  else if percentage ≤ -20 then "🎉"
  else if percentage ≤ -10 then "👏"
  else if percentage ≤ -5 then "✅"
  else ""

/-- Rounding half away from zero, the mode the spec ascribes to the
percentage computation (`-12.5` to `-13`, `12.5` to `13`). -/
def roundHalfAwayFromZero (q : ℚ) : ℤ :=
  if 0 ≤ q then ⌊q + 1/2⌋ else -⌊-q + 1/2⌋

lemma iconForDifference_eq_thresholds (delta originalSize : ℤ) (ho : originalSize ≠ 0) :
    iconForDifference delta originalSize = iconThresholds (jsPercentage delta originalSize) := by
  unfold iconForDifference iconThresholds
  simp [ho]

lemma iconThresholds_ne_new (p : ℤ) : iconThresholds p ≠ "🆕" := by
  unfold iconThresholds
  split
  · decide
  split
  · decide
  split
  · decide
  split
  · decide
  split
  · decide
  split
  · decide
  split
  · decide
  split
  · decide
  · decide

/-- JS `!columns[columns.length - 1]`: the last cell is falsy — the empty
string, or `undefined` when the row has no cells left. -/
def jsFalsyLast (columns : List String) : Bool :=
  match columns.getLast? with
  | none => true
  | some s => s = ""

/-- The guard of the trailing-column trimming loop in `markdownTable`:
`rows.every((columns) => !columns[columns.length - 1])`. -/
def trimCond (rows : List (List String)) : Bool :=
  rows.all jsFalsyLast

/-- The trailing-column trimming `while` loop of `markdownTable`, with
explicit fuel; `none` means the fuel ran out with the guard still true
(each iteration pops the last cell of every row; `pop` on an already
empty row is a no-op, i.e. `dropLast`). -/
def trimLoop : Nat → List (List String) → Option (List (List String))
  | 0, rows => if trimCond rows then none else some rows
  | fuel + 1, rows =>
      if trimCond rows then trimLoop fuel (rows.map List.dropLast)
      else some rows

/-- Length of the longest row; `maxRowLen rows + 1` fuel makes `trimLoop`
return `none` exactly when the JS loop never terminates (once every row is
empty the loop state no longer changes and the guard stays true). -/
def maxRowLen (rows : List (List String)) : Nat :=
  (rows.map List.length).foldr max 0

/-- One rendered line: ``| ${columns.join(' | ')} |``. -/
def renderRow (columns : List String) : String :=
  "| " ++ String.intercalate " | " columns ++ " |"

/-- utils.mjs `markdownTable(rows)`; `none` models the divergence of the
trimming loop (no amount of fuel makes it stop). -/
def markdownTable (rows : List (List String)) : Option String :=
  if rows.length = 0 then some ""
  else
    match trimLoop (maxRowLen rows + 1) rows with
    | none => none
    | some trimmed =>
        let firstRowLen := (trimmed.head?.getD []).length
        -- JS `columns[2] === '0 B'`: a row with fewer than 3 cells compares
        -- `undefined`, which is never equal to the string.
        let dropChange := firstRowLen = 3 && trimmed.all (fun columns => columns.get? 2 = some "0 B")
        let body := if dropChange then trimmed.map List.dropLast else trimmed
        let columnLength := if dropChange then firstRowLen - 1 else firstRowLen
        if columnLength = 0 then some ""
        else
          some (String.intercalate "\n"
            ((["Filename", "Size", "Change", ""].take columnLength
              :: [":---", ":---:", ":---:", ":---:"].take columnLength
              :: body).map renderRow))

/-- One entry of the `Diff[]` array handed to `diffTable` by the external
snapshot-diffing collaborator. -/
structure FileDiff where
  filename : String
  size : Int
  delta : Int
deriving DecidableEq, Repr

/-- The options object of `diffTable`. -/
structure ReportConfig where
  showTotal : Bool
  collapseUnchanged : Bool
  omitUnchanged : Bool
  minimumChangeThreshold : Int
deriving DecidableEq, Repr

/-- The mutable locals of the `diffTable` loop. -/
structure DiffState where
  changedRows : List (List String)
  unChangedRows : List (List String)
  totalSize : Int
  totalDelta : Int
deriving DecidableEq, Repr

/-- `Math.abs(delta) < minimumChangeThreshold`. -/
def isUnchangedB (cfg : ReportConfig) (file : FileDiff) : Bool :=
  (file.delta.natAbs : Int) < cfg.minimumChangeThreshold

/-- The `columns` array built for one file in the `diffTable` loop. -/
def diffRow (file : FileDiff) : List String :=
  ["`" ++ file.filename ++ "`",
   prettyBytes file.size,
   getDeltaText file.delta (file.size - file.delta),
   iconForDifference file.delta (file.size - file.delta)]

/-- One iteration of the `for (const file of files)` loop of `diffTable`. -/
def diffStep (cfg : ReportConfig) (st : DiffState) (file : FileDiff) : DiffState :=
  let st1 : DiffState :=
    { st with totalSize := st.totalSize + file.size, totalDelta := st.totalDelta + file.delta }
  if isUnchangedB cfg file && cfg.omitUnchanged then st1
  else if isUnchangedB cfg file && cfg.collapseUnchanged then
    { st1 with unChangedRows := st1.unChangedRows ++ [diffRow file] }
  else
    { st1 with changedRows := st1.changedRows ++ [diffRow file] }

/-- The state after the whole `diffTable` loop. -/
def diffTableState (files : List FileDiff) (cfg : ReportConfig) : DiffState :=
  files.foldl (diffStep cfg) ⟨[], [], 0, 0⟩

/-- `diffTable` after the loop and the unchanged-rows block, before the
`showTotal` prepends: `let out = markdownTable(changedRows)` and, when
`unChangedRows` is non-empty, the appended `<details>` block. -/
def diffTableBody (files : List FileDiff) (cfg : ReportConfig) : Option String :=
  let st := diffTableState files cfg
  match markdownTable st.changedRows with
  | none => none
  | some out =>
      if st.unChangedRows.length ≠ 0 then
        match markdownTable st.unChangedRows with
        | none => none
        | some outUnchanged =>
            some (out ++ "\n\n<details><summary>ℹ️ <strong>View Unchanged</strong></summary>\n\n"
              ++ outUnchanged ++ "\n\n</details>\n\n")
      else some out

/-- utils.mjs `diffTable(files, { showTotal, collapseUnchanged,
omitUnchanged, minimumChangeThreshold })`; `none` models divergence of
`markdownTable` (never reached on rows this loop builds). -/
def diffTable (files : List FileDiff) (cfg : ReportConfig) : Option String :=
  match diffTableBody files cfg with
  | none => none
  | some out =>
      if cfg.showTotal then
        let st := diffTableState files cfg
        let totalOriginalSize := st.totalSize - st.totalDelta
        let totalDeltaText := getDeltaText st.totalDelta totalOriginalSize
        let totalIcon := iconForDifference st.totalDelta totalOriginalSize
        let out := "**Total Size:** " ++ prettyBytes st.totalSize ++ "\n\n" ++ out
        some ("**Size Change:** " ++ totalDeltaText ++ " " ++ totalIcon ++ "\n\n" ++ out)
      else some out

/-- `hash.replace(/./g, '*')`: every character except a JS line terminator
becomes `*` (hash captures are single-line in practice). -/
def maskChars (s : String) : String :=
  String.mk (s.data.map (fun c =>
    if c = '\n' || c = '\r' || c.val = 0x2028 || c.val = 0x2029 then c else '*'))

/-- JS `str.replace(pat, rep)` with a plain-string pattern: replace the
first occurrence of `pat` (an empty pattern matches at position 0). -/
def listReplaceFirst (pat rep : List Char) : List Char → List Char
  | [] => if pat.isPrefixOf ([] : List Char) then rep else []
  | c :: rest =>
      if pat.isPrefixOf (c :: rest) then rep ++ (c :: rest).drop pat.length
      else c :: listReplaceFirst pat rep rest

def replaceFirstStr (s pat rep : String) : String :=
  String.mk (listReplaceFirst pat.data rep.data s.data)

/-- A value passed to the replacer callback through the rest parameter:
a capture (string or `undefined` for an unmatched group), the numeric
match offset, or the whole subject string. -/
inductive JsVal where
  | undef : JsVal
  | num : Nat → JsVal
  | str : String → JsVal
deriving DecidableEq, Repr

/-- The rest-parameter array of `(str, ...hashes) => …`: the capture
groups in order, then the match offset, then the whole string. -/
def replacerArgs (captures : List (Option String)) (offset : Nat) (whole : String) : List JsVal :=
  captures.map (fun c => match c with | some s => JsVal.str s | none => JsVal.undef)
    ++ [JsVal.num offset, JsVal.str whole]

/-- `hashes.slice(0, -2).filter((c) => c != null)`: drop the two trailing
non-capture arguments, then drop `undefined` captures (loose `!=` null). -/
def hashValues (captures : List (Option String)) (offset : Nat) (whole : String) : List JsVal :=
  let args := replacerArgs captures offset whole
  (args.take (args.length - 2)).filter (fun c => c != JsVal.undef)

/-- String coercion of `element || ''` as used in `str.replace(hash, …)`. -/
def hashString : JsVal → String
  | JsVal.str s => s
  | JsVal.num n => toString n
  | JsVal.undef => ""

/-- The replacer callback of `stripHash`: mask each kept capture inside
the matched substring, or collapse the match to the empty string when no
capture survives the filter. -/
def hashReplacer (matched : String) (captures : List (Option String))
    (offset : Nat) (whole : String) : String :=
  let hashes := hashValues captures offset whole
  if hashes.length ≠ 0 then
    hashes.foldl (fun str h => replaceFirstStr str (hashString h) (maskChars (hashString h))) matched
  else ""

/-- The one match (if any) found by `fileName.replace(new RegExp(regex), …)`
(no `g` flag): the text before the match, the matched substring, the
capture list, and the text after; the regex engine itself is the external
collaborator producing this. -/
structure RegexMatch where
  pre : String
  matched : String
  captures : List (Option String)
  post : String
deriving DecidableEq, Repr

/-- The normalizer returned by `stripHash(regex)` applied to a filename,
given the regex engine's match result (`none` = pattern did not match). -/
def stripHashApply (m : Option RegexMatch) (fileName : String) : String :=
  match m with
  | none => fileName
  | some md =>
      md.pre ++ hashReplacer md.matched md.captures md.pre.length
        (md.pre ++ md.matched ++ md.post) ++ md.post

/-- Modelled from the claim's words (C3): mask each captured hash value
except that up to two trailing capture groups of the pattern are treated
as non-hash bookkeeping groups and are excluded from masking. -/
def hashReplacerClaim (matched : String) (captures : List (Option String)) : String :=
  let hashes := (captures.take (captures.length - 2)).filterMap id
  hashes.foldl (fun str h => replaceFirstStr str h (maskChars h)) matched

/-- The claim's reading of the whole normalizer (C3). -/
def stripHashClaim (m : Option RegexMatch) (fileName : String) : String :=
  match m with
  | none => fileName
  | some md => md.pre ++ hashReplacerClaim md.matched md.captures ++ md.post

/-- A bundle snapshot: filename to byte size. -/
abbrev Snapshot := List (String × Nat)

/-- The JSON document stored in the gist file, in either of its two
shapes: the legacy bare snapshot, or the current shape whose `bundle`
property holds the snapshot. -/
inductive StoredJson where
  | legacy : Snapshot → StoredJson
  | wrapped : Snapshot → StoredJson
deriving DecidableEq, Repr

/-- The object `getGistContents` returns on success: it always carries a
`bundle` property (either found in the stored document or wrapped around
a legacy one). -/
structure GistResult where
  bundle : Snapshot
deriving DecidableEq, Repr

/-- utils.mjs `getGistContents()`: the fetch/parse pipeline outcome is the
input (`Except.error` covers a network failure, a non-ok response and a
malformed stored document, all of which throw into the catch).  The catch
logs and falls through, so the function returns `undefined` (`none`);
the second component is the error log. -/
def getGistContents : Except String StoredJson → Option GistResult × List String
  | Except.ok (StoredJson.legacy snap) => (some ⟨snap⟩, [])
  | Except.ok (StoredJson.wrapped bundle) => (some ⟨bundle⟩, [])
  | Except.error e => (none, ["getGistContents error " ++ e])

/-- The result of evaluating a JS expression that may throw. -/
inductive JsOutcome (α : Type) where
  | ok : α → JsOutcome α
  | thrown : String → JsOutcome α
deriving DecidableEq, Repr

/-- The `compare` command's consumption of the fetched baseline
(index.mjs): `prev.bundle ?? {}` — reading `.bundle` on an `undefined`
`prev` throws a TypeError before the `??` default can apply. -/
def comparePrevBundle : Option GistResult → JsOutcome Snapshot
  | none => JsOutcome.thrown "TypeError: Cannot read properties of undefined (reading 'bundle')"
  | some prev => JsOutcome.ok prev.bundle

/-- Routing decision of the loop body: the file's row lands in
`changedRows` (it is neither skipped nor collapsed). -/
def routedChanged (cfg : ReportConfig) (f : FileDiff) : Bool :=
  !(isUnchangedB cfg f && cfg.omitUnchanged) && !(isUnchangedB cfg f && cfg.collapseUnchanged)

/-- Routing decision of the loop body: the file's row lands in
`unChangedRows` (not skipped, but collapsed). -/
def routedUnchanged (cfg : ReportConfig) (f : FileDiff) : Bool :=
  !(isUnchangedB cfg f && cfg.omitUnchanged) && (isUnchangedB cfg f && cfg.collapseUnchanged)

lemma foldl_diffStep (cfg : ReportConfig) (files : List FileDiff) :
    ∀ st : DiffState,
      files.foldl (diffStep cfg) st =
        { changedRows := st.changedRows ++ (files.filter (routedChanged cfg)).map diffRow,
          unChangedRows := st.unChangedRows ++ (files.filter (routedUnchanged cfg)).map diffRow,
          totalSize := st.totalSize + (files.map FileDiff.size).sum,
          totalDelta := st.totalDelta + (files.map FileDiff.delta).sum } := by
  induction files with
  | nil => intro st; simp
  | cons f fs ih =>
      intro st
      rw [List.foldl_cons, ih]
      by_cases h1 : (isUnchangedB cfg f && cfg.omitUnchanged) = true
      · have hc : routedChanged cfg f = false := by simp [routedChanged, h1]
        have hu : routedUnchanged cfg f = false := by simp [routedUnchanged, h1]
        simp [diffStep, h1, List.filter_cons, hc, hu, add_assoc]
      · rw [Bool.not_eq_true] at h1
        by_cases h2 : (isUnchangedB cfg f && cfg.collapseUnchanged) = true
        · have hc : routedChanged cfg f = false := by simp [routedChanged, h2]
          have hu : routedUnchanged cfg f = true := by simp [routedUnchanged, h1, h2]
          simp [diffStep, h1, h2, List.filter_cons, hc, hu, add_assoc]
        · rw [Bool.not_eq_true] at h2
          have hc : routedChanged cfg f = true := by simp [routedChanged, h1, h2]
          have hu : routedUnchanged cfg f = false := by simp [routedUnchanged, h2]
          simp [diffStep, h1, h2, List.filter_cons, hc, hu, add_assoc]

lemma diffTableState_eq (files : List FileDiff) (cfg : ReportConfig) :
    diffTableState files cfg =
      { changedRows := (files.filter (routedChanged cfg)).map diffRow,
        unChangedRows := (files.filter (routedUnchanged cfg)).map diffRow,
        totalSize := (files.map FileDiff.size).sum,
        totalDelta := (files.map FileDiff.delta).sum } := by
  unfold diffTableState
  rw [foldl_diffStep]
  simp

lemma str_empty_append (s : String) : "" ++ s = s := by
  cases s
  rfl

/-- C1: for a failing fetch, `getGistContents` logs the error but returns
`undefined` (`none`), and the `compare` command's `prev.bundle ?? {}`
then throws a TypeError instead of degrading to an empty baseline — the
code at the failing input contradicts the claim. -/
theorem getGistContents_error_breaks_compare (e : String) :
    (getGistContents (Except.error e)).1 = none
    ∧ (getGistContents (Except.error e)).2 = ["getGistContents error " ++ e]
    ∧ comparePrevBundle (getGistContents (Except.error e)).1
        = JsOutcome.thrown "TypeError: Cannot read properties of undefined (reading 'bundle')" :=
  ⟨rfl, rfl, rfl⟩

/-- C2 counterexample: at delta = -1, originalSize = 8 the raw percentage
is -12.5; the code's `Math.round` gives -12 while rounding half away from
zero gives -13, so the percentage is not rounded half away from zero. -/
theorem percentage_rounding_cex :
    jsPercentage (-1) 8 = -12
    ∧ roundHalfAwayFromZero (((-1 : ℤ) : ℚ) / ((8 : ℤ) : ℚ) * 100) = -13
    ∧ jsPercentage (-1) 8 ≠ roundHalfAwayFromZero (((-1 : ℤ) : ℚ) / ((8 : ℤ) : ℚ) * 100) := by
  have h1 : jsPercentage (-1) 8 = -12 := by
    unfold jsPercentage jsRound
    norm_num
  have h2 : roundHalfAwayFromZero (((-1 : ℤ) : ℚ) / ((8 : ℤ) : ℚ) * 100) = -13 := by
    unfold roundHalfAwayFromZero
    rw [if_neg (by norm_num)]
    norm_num
  exact ⟨h1, h2, by rw [h1, h2]; decide⟩

/-- C2 amended: the percentage used by both classifier functions is
`delta/originalSize*100` rounded half UP (toward positive infinity,
`Math.round` = floor of x + 1/2); both `getDeltaText` (in its percentage
branch) and `iconForDifference` use exactly this value. -/
theorem percentage_rounds_half_up (delta originalSize : ℤ) (ho : originalSize ≠ 0) :
    jsPercentage delta originalSize = ⌊((delta * 100 : ℤ) : ℚ) / (originalSize : ℚ) + 1/2⌋
    ∧ iconForDifference delta originalSize = iconThresholds (jsPercentage delta originalSize)
    ∧ (delta ≠ 0 → originalSize ≠ -delta →
        getDeltaText delta originalSize
          = (if delta > 0 then "+" else "") ++ prettyBytes delta ++ " ("
            ++ (if jsPercentage delta originalSize > 0 then "+" else "")
            ++ toString (jsPercentage delta originalSize) ++ "%)") := by
  refine ⟨?_, iconForDifference_eq_thresholds delta originalSize ho, ?_⟩
  · unfold jsPercentage jsRound
    congr 1
    push_cast
    ring
  · intro hd hr
    simp only [getDeltaText]
    rw [if_neg (by simpa using hd), if_neg ho, if_neg hr]

/-- C2 witness: the amended rounding rule instantiated at the boundary
input (-1, 8), where the code's percentage evaluates to -12. -/
theorem percentage_rounds_half_up_w :
    jsPercentage (-1) 8 = ⌊(((-1 : ℤ) * 100 : ℤ) : ℚ) / ((8 : ℤ) : ℚ) + 1/2⌋
    ∧ jsPercentage (-1) 8 = -12 :=
  ⟨(percentage_rounds_half_up (-1) 8 (by decide)).1, by unfold jsPercentage jsRound; norm_num⟩

/-- C3 counterexample: with the repository's own hash pattern
`\.(\w{8})\.js$` matching `app.a1b2c3d4.js` (one capture group), the code
masks the captured hash, while the claim's "up to two trailing capture
groups are excluded from masking" predicts no masking at all. -/
theorem stripHash_trailing_groups_cex :
    stripHashApply (some ⟨"app", ".a1b2c3d4.js", [some "a1b2c3d4"], ""⟩) "app.a1b2c3d4.js"
        = "app.********.js"
    ∧ stripHashClaim (some ⟨"app", ".a1b2c3d4.js", [some "a1b2c3d4"], ""⟩) "app.a1b2c3d4.js"
        = "app.a1b2c3d4.js"
    ∧ ("app.********.js" : String) ≠ "app.a1b2c3d4.js" := by
  refine ⟨rfl, rfl, by decide⟩

/-- C3 amended: the replacer masks every non-`undefined` captured hash
value (each occurrence found first inside the matched substring,
preserving length); the two trailing elements it drops are the regex
callback's offset and whole-string arguments, not capture groups, so no
capture group is excluded from masking; with no surviving capture the
match collapses to the empty string (and a failed match leaves the
filename unchanged, `stripHashApply none`). -/
theorem hashReplacer_masks_all_captures (matched : String) (captures : List (Option String))
    (offset : Nat) (whole : String) :
    hashReplacer matched captures offset whole =
      if (captures.filterMap id).length ≠ 0 then
        (captures.filterMap id).foldl
          (fun str h => replaceFirstStr str h (maskChars h)) matched
      else "" := by
  have hfilter : ∀ cs : List (Option String),
      ((cs.map fun c => match c with
          | some s => JsVal.str s
          | none => JsVal.undef).filter (fun c => c != JsVal.undef))
        = (cs.filterMap id).map JsVal.str := by
    intro cs
    induction cs with
    | nil => rfl
    | cons c cs ih =>
        cases c with
        | none => simpa using ih
        | some s => simpa using ih
  have hvals : hashValues captures offset whole = (captures.filterMap id).map JsVal.str := by
    simp only [hashValues, replacerArgs]
    rw [List.take_left' (by simp)]
    exact hfilter captures
  unfold hashReplacer
  rw [hvals]
  simp only [List.length_map, List.foldl_map]
  rfl

lemma trimLoop_empty_row (fuel : Nat) : trimLoop fuel [([] : List String)] = none := by
  induction fuel with
  | zero => rfl
  | succ n ih =>
      show trimLoop n [([] : List String)] = none
      exact ih

/-- C4: on a non-empty row set whose every cell is empty (e.g. the single
row `[""]`), the trailing-column trimming loop never terminates — popping
an already-empty row is a no-op while the all-falsy guard stays true — so
`markdownTable` diverges instead of producing empty output. -/
theorem markdownTable_all_empty_diverges :
    (∀ fuel : Nat, trimLoop fuel [[""]] = none) ∧ markdownTable [[""]] = none := by
  constructor
  · intro fuel
    cases fuel with
    | zero => rfl
    | succ n =>
        show trimLoop n [([] : List String)] = none
        exact trimLoop_empty_row n
  · rfl

/-- C5: the special cases of `getDeltaText` apply in the claimed order:
delta = 0 gives the bare formatted size; else originalSize = 0 appends
" (new file)"; else originalSize = -delta appends " (removed)"; otherwise
the rounded percentage is appended with a "+" for positive percentages,
and the leading delta carries a "+" exactly for positive delta. -/
theorem getDeltaText_case_order (delta originalSize : ℤ) :
    (delta = 0 → getDeltaText delta originalSize = prettyBytes delta)
    ∧ (delta ≠ 0 → originalSize = 0 →
        getDeltaText delta originalSize
          = (if delta > 0 then "+" else "") ++ prettyBytes delta ++ " (new file)")
    ∧ (delta ≠ 0 → originalSize ≠ 0 → originalSize = -delta →
        getDeltaText delta originalSize
          = (if delta > 0 then "+" else "") ++ prettyBytes delta ++ " (removed)")
    ∧ (delta ≠ 0 → originalSize ≠ 0 → originalSize ≠ -delta →
        getDeltaText delta originalSize
          = (if delta > 0 then "+" else "") ++ prettyBytes delta ++ " ("
            ++ (if jsPercentage delta originalSize > 0 then "+" else "")
            ++ toString (jsPercentage delta originalSize) ++ "%)") := by
  refine ⟨?_, ?_, ?_, ?_⟩
  · intro h
    subst h
    simp only [getDeltaText]
    rw [if_pos (show Int.natAbs 0 = 0 by decide), if_neg (show ¬((0 : ℤ) > 0) by decide)]
    exact str_empty_append _
  · intro hd ho
    simp only [getDeltaText]
    rw [if_neg (by simpa using hd), if_pos ho]
  · intro hd ho hr
    simp only [getDeltaText]
    rw [if_neg (by simpa using hd), if_neg ho, if_pos hr]
  · intro hd ho hr
    simp only [getDeltaText]
    rw [if_neg (by simpa using hd), if_neg ho, if_neg hr]

/-- C5 witness: the case order evaluated at concrete inputs — a new file
(+5 B, originalSize 0), a removal (-200 B against 200), and a zero delta. -/
theorem getDeltaText_case_order_w :
    getDeltaText 5 0 = "+5 B (new file)"
    ∧ getDeltaText (-200) 200 = "-200 B (removed)"
    ∧ getDeltaText 0 7 = "0 B" := by
  refine ⟨?_, ?_, ?_⟩
  · exact ((getDeltaText_case_order 5 0).2.1 (by decide) rfl).trans (by decide)
  · exact ((getDeltaText_case_order (-200) 200).2.2.1 (by decide) (by decide) (by decide)).trans
      (by decide)
  · exact ((getDeltaText_case_order 0 7).1 rfl).trans (by decide)

lemma jsPercentage_of_ratio (d o p : ℤ) (ho : o ≠ 0) (hp : jsPercentage d o = p) :
    iconForDifference d o = iconThresholds p := by
  rw [iconForDifference_eq_thresholds d o ho, hp]

/-- C6: `iconForDifference` yields the "new" icon exactly when
originalSize = 0; otherwise it maps the rounded percentage through the
threshold chain (growth before shrink, largest magnitude first, empty
icon in (-5, 5)); at percentages exactly 50, 49, -50, -49 it yields the
critical-growth, warning-growth, trophy-shrink and celebration-shrink
icons respectively. -/
theorem iconForDifference_threshold_map :
    (∀ delta originalSize : ℤ,
        (iconForDifference delta originalSize = "🆕" ↔ originalSize = 0))
    ∧ (∀ delta originalSize : ℤ, originalSize ≠ 0 →
        iconForDifference delta originalSize = iconThresholds (jsPercentage delta originalSize))
    ∧ (∀ p : ℤ, -5 < p → p < 5 → iconThresholds p = "")
    ∧ iconForDifference 50 100 = "🆘" ∧ iconForDifference 49 100 = "🚨"
    ∧ iconForDifference (-50) 100 = "🏆" ∧ iconForDifference (-49) 100 = "🎉" := by
  refine ⟨?_, iconForDifference_eq_thresholds, ?_, ?_, ?_, ?_, ?_⟩
  · intro d o
    constructor
    · intro h
      by_contra ho
      rw [iconForDifference_eq_thresholds d o ho] at h
      exact iconThresholds_ne_new _ h
    · intro ho
      subst ho
      simp [iconForDifference]
  · intro p h1 h2
    interval_cases p <;> decide
  · exact (jsPercentage_of_ratio 50 100 50 (by decide)
      (by unfold jsPercentage jsRound; norm_num)).trans (by decide)
  · exact (jsPercentage_of_ratio 49 100 49 (by decide)
      (by unfold jsPercentage jsRound; norm_num)).trans (by decide)
  · exact (jsPercentage_of_ratio (-50) 100 (-50) (by decide)
      (by unfold jsPercentage jsRound; norm_num)).trans (by decide)
  · exact (jsPercentage_of_ratio (-49) 100 (-49) (by decide)
      (by unfold jsPercentage jsRound; norm_num)).trans (by decide)

/-- C6 witness: the non-new branch instantiated at (7, 100), where the
rounded percentage is 7 and the icon is the notice-growth magnifier. -/
theorem iconForDifference_threshold_map_w :
    iconForDifference 7 100 = iconThresholds (jsPercentage 7 100)
    ∧ iconForDifference 7 100 = "🔍"
    ∧ iconThresholds 0 = "" := by
  refine ⟨iconForDifference_threshold_map.2.1 7 100 (by decide), ?_,
    iconForDifference_threshold_map.2.2.1 0 (by decide) (by decide)⟩
  exact (jsPercentage_of_ratio 7 100 7 (by decide)
    (by unfold jsPercentage jsRound; norm_num)).trans (by decide)

/-- C7: with omitUnchanged set, every file below the change threshold is
excluded from both display groups (the changed group keeps exactly the
files at or above the threshold, the unchanged group is empty), while
totalSize and totalDelta still sum over all files including the skipped
ones. -/
theorem omitUnchanged_skips_rows_but_counts_totals
    (files : List FileDiff) (cfg : ReportConfig) (homit : cfg.omitUnchanged = true) :
    (diffTableState files cfg).changedRows
        = (files.filter (fun f => !isUnchangedB cfg f)).map diffRow
    ∧ (diffTableState files cfg).unChangedRows = []
    ∧ (diffTableState files cfg).totalSize = (files.map FileDiff.size).sum
    ∧ (diffTableState files cfg).totalDelta = (files.map FileDiff.delta).sum := by
  have hCf : routedChanged cfg = fun f => !isUnchangedB cfg f := by
    funext f
    unfold routedChanged
    rw [homit]
    cases isUnchangedB cfg f <;> rfl
  have hUf : routedUnchanged cfg = fun _ => false := by
    funext f
    unfold routedUnchanged
    rw [homit]
    cases isUnchangedB cfg f <;> rfl
  rw [diffTableState_eq, hCf, hUf]
  refine ⟨rfl, ?_, rfl, rfl⟩
  simp

/-- C7 witness: the below-threshold file a.js (delta 3) is dropped from
both groups while both totals still count its size and delta. -/
theorem omitUnchanged_skips_rows_but_counts_totals_w :
    (diffTableState [FileDiff.mk "a.js" 3 3, FileDiff.mk "b.js" 200 200]
        (ReportConfig.mk false false true 10)).unChangedRows = []
    ∧ (diffTableState [FileDiff.mk "a.js" 3 3, FileDiff.mk "b.js" 200 200]
        (ReportConfig.mk false false true 10)).changedRows
        = [["`b.js`", "200 B", "+200 B (new file)", "🆕"]]
    ∧ (diffTableState [FileDiff.mk "a.js" 3 3, FileDiff.mk "b.js" 200 200]
        (ReportConfig.mk false false true 10)).totalSize = 203
    ∧ (diffTableState [FileDiff.mk "a.js" 3 3, FileDiff.mk "b.js" 200 200]
        (ReportConfig.mk false false true 10)).totalDelta = 203 :=
  ⟨(omitUnchanged_skips_rows_but_counts_totals _ _ rfl).2.1, rfl, rfl, rfl⟩

lemma diffStep_showTotal (cfg : ReportConfig) (b : Bool) :
    diffStep { cfg with showTotal := b } = diffStep cfg := by
  funext st f
  rfl

lemma diffTableState_showTotal (files : List FileDiff) (cfg : ReportConfig) (b : Bool) :
    diffTableState files { cfg with showTotal := b } = diffTableState files cfg := by
  unfold diffTableState
  rw [diffStep_showTotal]

lemma diffTableBody_showTotal (files : List FileDiff) (cfg : ReportConfig) (b : Bool) :
    diffTableBody files { cfg with showTotal := b } = diffTableBody files cfg := by
  unfold diffTableBody
  rw [diffTableState_showTotal]

/-- C8 counterexample: with showTotal, the first prepended line of the
output is the size-change line, not the total-size line the claim puts
first (shown on the empty diff list: the output's leading characters
spell "**Size Change:**"). -/
theorem showTotal_order_cex :
    diffTable [] (ReportConfig.mk true true false 10)
        = some "**Size Change:** 0 B 🆕\n\n**Total Size:** 0 B\n\n"
    ∧ ("**Size Change:** 0 B 🆕\n\n**Total Size:** 0 B\n\n").data.take 15
        ≠ ("**Total Size:**").data
    ∧ ("**Size Change:** 0 B 🆕\n\n**Total Size:** 0 B\n\n").data.take 16
        = ("**Size Change:**").data := by
  refine ⟨rfl, by decide, by decide⟩

/-- C8 amended: with showTotal, exactly two lines are prepended above
everything else, both derived from the accumulated totals — but in the
order size change first (text and icon from the Delta Classifier applied
to (totalDelta, totalSize - totalDelta)), then total size. -/
theorem showTotal_prepends_change_then_size
    (files : List FileDiff) (cfg : ReportConfig) (hshow : cfg.showTotal = true) :
    diffTable files cfg
      = (diffTable files { cfg with showTotal := false }).map (fun rest =>
          "**Size Change:** "
            ++ getDeltaText (diffTableState files cfg).totalDelta
                ((diffTableState files cfg).totalSize - (diffTableState files cfg).totalDelta)
            ++ " "
            ++ iconForDifference (diffTableState files cfg).totalDelta
                ((diffTableState files cfg).totalSize - (diffTableState files cfg).totalDelta)
            ++ "\n\n"
            ++ ("**Total Size:** " ++ prettyBytes (diffTableState files cfg).totalSize
                ++ "\n\n" ++ rest)) := by
  unfold diffTable
  rw [diffTableBody_showTotal files cfg false, diffTableState_showTotal files cfg false]
  cases hb : diffTableBody files cfg with
  | none => rfl
  | some out => simp [hshow]

/-- C8 witness: the amended prepend rule instantiated on a one-file list,
with both sides evaluated. -/
theorem showTotal_prepends_change_then_size_w :
    (diffTable [FileDiff.mk "a.js" 100 100] (ReportConfig.mk true true false 10)
      = (diffTable [FileDiff.mk "a.js" 100 100] (ReportConfig.mk false true false 10)).map
          (fun rest =>
            "**Size Change:** "
              ++ getDeltaText
                  (diffTableState [FileDiff.mk "a.js" 100 100]
                    (ReportConfig.mk true true false 10)).totalDelta
                  ((diffTableState [FileDiff.mk "a.js" 100 100]
                      (ReportConfig.mk true true false 10)).totalSize
                    - (diffTableState [FileDiff.mk "a.js" 100 100]
                        (ReportConfig.mk true true false 10)).totalDelta)
              ++ " "
              ++ iconForDifference
                  (diffTableState [FileDiff.mk "a.js" 100 100]
                    (ReportConfig.mk true true false 10)).totalDelta
                  ((diffTableState [FileDiff.mk "a.js" 100 100]
                      (ReportConfig.mk true true false 10)).totalSize
                    - (diffTableState [FileDiff.mk "a.js" 100 100]
                        (ReportConfig.mk true true false 10)).totalDelta)
              ++ "\n\n"
              ++ ("**Total Size:** "
                  ++ prettyBytes (diffTableState [FileDiff.mk "a.js" 100 100]
                      (ReportConfig.mk true true false 10)).totalSize
                  ++ "\n\n" ++ rest)))
    ∧ diffTable [FileDiff.mk "a.js" 100 100] (ReportConfig.mk true true false 10)
        = some "**Size Change:** +100 B (new file) 🆕\n\n**Total Size:** 100 B\n\n| Filename | Size | Change |  |\n| :--- | :---: | :---: | :---: |\n| `a.js` | 100 B | +100 B (new file) | 🆕 |" :=
  ⟨showTotal_prepends_change_then_size _ _ rfl, rfl⟩

/-- C9: with collapseUnchanged set and omitUnchanged unset, every file
below the change threshold is routed to the unchanged group and the rest
to the changed group; a non-empty unchanged group is rendered by the same
table renderer independently and wrapped in a collapsible disclosure
block titled "View Unchanged" appended after the main table. -/
theorem collapseUnchanged_routes_and_wraps
    (files : List FileDiff) (cfg : ReportConfig)
    (hcol : cfg.collapseUnchanged = true) (homit : cfg.omitUnchanged = false) :
    (diffTableState files cfg).unChangedRows
        = (files.filter (fun f => isUnchangedB cfg f)).map diffRow
    ∧ (diffTableState files cfg).changedRows
        = (files.filter (fun f => !isUnchangedB cfg f)).map diffRow
    ∧ (∀ m u : String,
        (diffTableState files cfg).unChangedRows ≠ [] →
        markdownTable (diffTableState files cfg).changedRows = some m →
        markdownTable (diffTableState files cfg).unChangedRows = some u →
        diffTableBody files cfg
          = some (m ++ "\n\n<details><summary>ℹ️ <strong>View Unchanged</strong></summary>\n\n"
              ++ u ++ "\n\n</details>\n\n")) := by
  have hUf : routedUnchanged cfg = fun f => isUnchangedB cfg f := by
    funext f
    unfold routedUnchanged
    rw [hcol, homit]
    cases isUnchangedB cfg f <;> rfl
  have hCf : routedChanged cfg = fun f => !isUnchangedB cfg f := by
    funext f
    unfold routedChanged
    rw [hcol, homit]
    cases isUnchangedB cfg f <;> rfl
  refine ⟨by rw [diffTableState_eq, hUf], by rw [diffTableState_eq, hCf], ?_⟩
  intro m u hne hm hu
  simp only [diffTableBody, hm, hu]
  rw [if_pos (show (diffTableState files cfg).unChangedRows.length ≠ 0 from by
    simpa [List.length_eq_zero] using hne)]

/-- C9 witness: a below-threshold file lands in the unchanged group and
the report appends the rendered unchanged table inside the View Unchanged
disclosure block. -/
theorem collapseUnchanged_routes_and_wraps_w :
    diffTableBody [FileDiff.mk "a.js" 100 100, FileDiff.mk "b.js" 5 5]
        (ReportConfig.mk false true false 10)
      = some ("| Filename | Size | Change |  |\n| :--- | :---: | :---: | :---: |\n| `a.js` | 100 B | +100 B (new file) | 🆕 |"
          ++ "\n\n<details><summary>ℹ️ <strong>View Unchanged</strong></summary>\n\n"
          ++ "| Filename | Size | Change |  |\n| :--- | :---: | :---: | :---: |\n| `b.js` | 5 B | +5 B (new file) | 🆕 |"
          ++ "\n\n</details>\n\n") :=
  (collapseUnchanged_routes_and_wraps _ _ rfl rfl).2.2
    "| Filename | Size | Change |  |\n| :--- | :---: | :---: | :---: |\n| `a.js` | 100 B | +100 B (new file) | 🆕 |"
    "| Filename | Size | Change |  |\n| :--- | :---: | :---: | :---: |\n| `b.js` | 5 B | +5 B (new file) | 🆕 |"
    (by decide) rfl rfl

/-- C10: on the empty diff list with showTotal, the report is exactly the
two total lines — the size change 0 B (carrying the "new" icon, since the
total original size is 0) and the total size 0 B — with no table rows, no
header and no View Unchanged section. -/
theorem diffTable_empty_shows_totals_only (collapse omitU : Bool) (threshold : ℤ) :
    diffTable [] (ReportConfig.mk true collapse omitU threshold)
        = some "**Size Change:** 0 B 🆕\n\n**Total Size:** 0 B\n\n"
    ∧ ¬ ("View Unchanged").data <:+: ("**Size Change:** 0 B 🆕\n\n**Total Size:** 0 B\n\n").data
    ∧ ¬ ("| Filename").data <:+: ("**Size Change:** 0 B 🆕\n\n**Total Size:** 0 B\n\n").data := by
  refine ⟨?_, by decide, by decide⟩
  have hbody : diffTableBody [] (ReportConfig.mk true collapse omitU threshold) = some "" := rfl
  have hstate : diffTableState [] (ReportConfig.mk true collapse omitU threshold)
      = ⟨[], [], 0, 0⟩ := rfl
  unfold diffTable
  rw [hbody, hstate]
  rfl

end CompareBundleSize
